import Mathlib

/-!
Verification development for the ESG bill-processing pipeline.

The Python sources are shallowly embedded:
* text extraction helpers from `src/utils.py` become scanners over `List Char`
  (each regex pattern of the source is hand-compiled to a deterministic
  scanner with the same search semantics on the pattern's character classes);
* the three-tier orchestrator `extract_bill_data` becomes a pure function of
  the three tier results (the tier extractors themselves perform I/O, so their
  results are parameters of the model);
* `calculate.py`, `validation.py` and `reports.py` become pure functions over
  rationals (Python floats are modelled as `ℚ`; the claims under study are not
  sensitive to binary floating point rounding), with the Claude API call of
  `generate_gri_report_section` abstracted as a parameter.
-/

namespace Esg

/- The Batteries rational arithmetic is `@[irreducible]`; concrete theorems
below evaluate the models by `decide`, which needs these to unfold. -/
attribute [local semireducible] Rat.mul Rat.inv Rat.add Rat.sub

abbrev Chars := List Char

/-- ASCII lower-casing of one character, as Python's `str.lower` acts on the
ASCII texts handled by the extractors. -/
def lowerChar (c : Char) : Char :=
  if 'A' ≤ c ∧ c ≤ 'Z' then Char.ofNat (c.toNat + 32) else c

/-- Lower-cased character list of a string; all the source regexes are used
with `re.IGNORECASE` (or on `text.lower()`), so the model lower-cases once. -/
def lower (s : String) : Chars := s.toList.map lowerChar

/-- Python's `\s` class (space, tab, newline, carriage return, vtab, formfeed). -/
def isSpaceC (c : Char) : Bool :=
  c = ' ' || c = '\t' || c = '\n' || c = '\r' || c = '\x0b' || c = '\x0c'

/-- Python's `\w` class restricted to ASCII. -/
def isWordC (c : Char) : Bool := c.isAlphanum || c = '_'

/-- The character class `[:\s]` used after labels such as `Reading`. -/
def colonSp (c : Char) : Bool := c = ':' || isSpaceC c

/-- Consume an exact literal, returning the rest of the input. -/
def lit : Chars → Chars → Option Chars
  | [], cs => some cs
  | _ :: _, [] => none
  | p :: ps, c :: cs => if c = p then lit ps cs else none

/-- Consume `\s+` (at least one whitespace character, greedily). -/
def spaces1 : Chars → Option Chars
  | c :: cs => if isSpaceC c then some (cs.dropWhile isSpaceC) else none
  | [] => none

/-- Consume `\s*`. -/
def sp (cs : Chars) : Chars := cs.dropWhile isSpaceC

/-- Consume `[:\s]+`. -/
def colonSp1 : Chars → Option Chars
  | c :: cs => if colonSp c then some (cs.dropWhile colonSp) else none
  | [] => none

/-- Numeric value of a digit string, as Python's `int`. -/
def natOfDigits (ds : Chars) : ℕ := ds.foldl (fun a c => 10 * a + (c.toNat - 48)) 0

/-- Consume `(\d+)` greedily, capturing its integer value. -/
def natCapture : Chars → Option (ℕ × Chars)
  | c :: cs =>
      if c.isDigit then
        some (natOfDigits ((c :: cs).takeWhile Char.isDigit),
              (c :: cs).dropWhile Char.isDigit)
      else none
  | [] => none

/-- Consume `\d+` without capturing. -/
def digits1 : Chars → Option Chars
  | c :: cs => if c.isDigit then some ((c :: cs).dropWhile Char.isDigit) else none
  | [] => none

/-- Consume `(\d+\.?\d*)`, capturing the value Python's `float` would parse. -/
def numCapture (cs : Chars) : Option (ℚ × Chars) :=
  match cs with
  | c :: _ =>
      if c.isDigit then
        let ip := cs.takeWhile Char.isDigit
        let r1 := cs.dropWhile Char.isDigit
        match r1 with
        | '.' :: r2 =>
            let fp := r2.takeWhile Char.isDigit
            let r3 := r2.dropWhile Char.isDigit
            -- the exact value of the decimal numeral `ip.fp`
            some (mkRat (natOfDigits ip * 10 ^ fp.length + natOfDigits fp) (10 ^ fp.length), r3)
        | _ => some ((natOfDigits ip : ℚ), r1)
      else none
  | [] => none

/-- Semantics of `re.search`: first position (left to right) where the scanner
matches; returns the capture. -/
def searchCap {α : Type} (m : Chars → Option (α × Chars)) : Chars → Option α
  | [] => (m []).map Prod.fst
  | c :: cs =>
      match m (c :: cs) with
      | some (a, _) => some a
      | none => searchCap m cs

/-- Worker for `searchAll`; the fuel only serves totality (every scanner used
here consumes at least one character, so fuel `length + 1` is never short). -/
def searchAllGo {α : Type} (m : Chars → Option (α × Chars)) : ℕ → Chars → List α
  | 0, _ => []
  | _ + 1, [] => []
  | f + 1, c :: cs =>
      match m (c :: cs) with
      | some (a, rest) => a :: searchAllGo m f rest
      | none => searchAllGo m f cs

/-- Semantics of `re.finditer`: all non-overlapping matches, leftmost first. -/
def searchAll {α : Type} (m : Chars → Option (α × Chars)) (cs : Chars) : List α :=
  searchAllGo m (cs.length + 1) cs

/-- End-of-line test for the `\s*$` tail (MULTILINE): some whitespace may be
skipped so long as a newline or the end of the text is reached. -/
def atEolSp : Chars → Bool
  | [] => true
  | c :: cs => if c = '\n' then true else if isSpaceC c then atEolSp cs else false

/-- Consume `(\d{2,4})` followed (after `\s*$`-style backtracking) by nothing
but an end of line: the maximal digit run must have length 2 to 4, since a
shorter greedy choice would leave a digit that neither `\s*` nor `$` accepts. -/
def nat24Capture (cs : Chars) : Option (ℕ × Chars) :=
  let ds := cs.takeWhile Char.isDigit
  if 2 ≤ ds.length ∧ ds.length ≤ 4 then
    some (natOfDigits ds, cs.dropWhile Char.isDigit)
  else none

/-- Scanner for the pattern `\|\s*(\d+)\s*$` of `extract_usage_value`. -/
def mTableLastNum (cs : Chars) : Option (ℚ × Chars) := do
  let a ← lit ['|'] cs
  let (n, rest) ← natCapture (sp a)
  if atEolSp rest then pure ((n : ℚ), rest) else none

/-- Tail of `Reading.*?\|\s*(\d{2,4})\s*$`: the lazy dot cannot cross a
newline, so scan forward within the line for the first viable pipe. -/
def lazyPipeScan : Chars → Option (ℚ × Chars)
  | [] => none
  | c :: cs =>
      match (do
        let a ← lit ['|'] (c :: cs)
        let (n, rest) ← nat24Capture (sp a)
        if atEolSp rest then pure ((n : ℚ), rest) else (none : Option (ℚ × Chars))) with
      | some r => some r
      | none => if c = '\n' then none else lazyPipeScan cs

/-- Scanner for the pattern `Reading.*?\|\s*(\d{2,4})\s*$`. -/
def mReadingPipe (cs : Chars) : Option (ℚ × Chars) := do
  let a ← lit "reading".toList cs
  lazyPipeScan a

/-- Scanner for the pattern `\|\s*\d+\s*\|\s*\d+\s*\|\s*(\d{2,4})\s*$`. -/
def mTriplePipe (cs : Chars) : Option (ℚ × Chars) := do
  let a ← lit ['|'] cs
  let b ← digits1 (sp a)
  let c2 ← lit ['|'] (sp b)
  let d ← digits1 (sp c2)
  let e ← lit ['|'] (sp d)
  let (n, rest) ← nat24Capture (sp e)
  if atEolSp rest then pure ((n : ℚ), rest) else none

/-- The plausibility filter `50 < value < 10000` of `extract_usage_value`. -/
def inRange (v : ℚ) : Bool := decide (50 < v) && decide (v < 10000)

/-- First captured value passing the plausibility filter. -/
def firstInRange (l : List ℚ) : Option ℚ := l.find? inRange

/-- Priority 1 of `extract_usage_value` (utils.py): the `table_usage_patterns`
loop — for each pattern in order, the first in-range value among its matches. -/
def table_usage_scan (t : Chars) : Option ℚ :=
  firstInRange (searchAll mTableLastNum t) <|>
  firstInRange (searchAll mReadingPipe t) <|>
  firstInRange (searchAll mTriplePipe t)

/-- Scanner for `Billed\s+Usage[^\d]*(\d+)\s*kWh`. -/
def mBilledUsageTbl (cs : Chars) : Option (ℚ × Chars) := do
  let a ← lit "billed".toList cs
  let b ← spaces1 a
  let c ← lit "usage".toList b
  let d := c.dropWhile (fun ch => !ch.isDigit)
  let (n, rest) ← natCapture d
  let f ← lit "kwh".toList (sp rest)
  pure ((n : ℚ), f)

/-- Scanner for `Usage\s*\|\s*(\d+)\s*\|`. -/
def mUsagePipe (cs : Chars) : Option (ℚ × Chars) := do
  let a ← lit "usage".toList cs
  let b ← lit ['|'] (sp a)
  let (n, rest) ← natCapture (sp b)
  let f ← lit ['|'] (sp rest)
  pure ((n : ℚ), f)

/-- Scanner for `\|\s*(\d+)\s*kWh\s*\|`. -/
def mPipeKwhPipe (cs : Chars) : Option (ℚ × Chars) := do
  let a ← lit ['|'] cs
  let (n, rest) ← natCapture (sp a)
  let f ← lit "kwh".toList (sp rest)
  let g ← lit ['|'] (sp f)
  pure ((n : ℚ), g)

/-- One `re.search` step of the `table_patterns`/`priority_patterns` loops:
the first match is taken, and kept only if it passes the plausibility filter
(an out-of-range first match moves on to the next pattern). -/
def tryFirstMatch (m : Chars → Option (ℚ × Chars)) (t : Chars) : Option ℚ :=
  match searchCap m t with
  | some v => if inRange v then some v else none
  | none => none

/-- Priority 1.5 of `extract_usage_value`: the `table_patterns` loop. -/
def billed_table_scan (t : Chars) : Option ℚ :=
  tryFirstMatch mBilledUsageTbl t <|>
  tryFirstMatch mUsagePipe t <|>
  tryFirstMatch mPipeKwhPipe t

/-- Scanner for `Previous\s+Reading[:\s]+(\d+)`. -/
def mPrevReading1 (cs : Chars) : Option (ℕ × Chars) := do
  let a ← lit "previous".toList cs
  let b ← spaces1 a
  let c ← lit "reading".toList b
  let d ← colonSp1 c
  natCapture d

/-- Scanner for `(?:Present|Current)\s+Reading[:\s]+(\d+)`. -/
def mCurrReading1 (cs : Chars) : Option (ℕ × Chars) := do
  let a ← (lit "present".toList cs <|> lit "current".toList cs)
  let b ← spaces1 a
  let c ← lit "reading".toList b
  let d ← colonSp1 c
  natCapture d

/-- Scanner for `Prev(?:ious)?\s+Read[:\s]+(\d+)`; the optional group is
greedy with backtracking. -/
def mPrevRead2 (cs : Chars) : Option (ℕ × Chars) := do
  let a ← lit "prev".toList cs
  let tail := fun (x : Chars) => do
    let b ← spaces1 x
    let c ← lit "read".toList b
    let d ← colonSp1 c
    natCapture d
  match lit "ious".toList a with
  | some a2 => tail a2 <|> tail a
  | none => tail a

/-- Scanner for `(?:Current|Present)\s+Read[:\s]+(\d+)`. -/
def mCurrRead2 (cs : Chars) : Option (ℕ × Chars) := do
  let a ← (lit "current".toList cs <|> lit "present".toList cs)
  let b ← spaces1 a
  let c ← lit "read".toList b
  let d ← colonSp1 c
  natCapture d

/-- Scanner for `Previous[:\s]+(\d+)`. -/
def mPrev3 (cs : Chars) : Option (ℕ × Chars) := do
  let a ← lit "previous".toList cs
  let d ← colonSp1 a
  natCapture d

/-- Scanner for `Current[:\s]+(\d+)`. -/
def mCurr3 (cs : Chars) : Option (ℕ × Chars) := do
  let a ← lit "current".toList cs
  let d ← colonSp1 a
  natCapture d

/-- Searches one previous/current pattern pair; some pair of captures exactly
when both `re.search` calls of the source find a match. -/
def meterPairSearch (pm cm : Chars → Option (ℕ × Chars)) (t : Chars) :
    Option (ℕ × ℕ) :=
  match searchCap pm t, searchCap cm t with
  | some p, some c => some (p, c)
  | _, _ => none

/-- One iteration of the `meter_patterns` loop: when both readings are found,
`usage = current - previous` is returned if plausible; otherwise the loop
continues with the next pair. -/
def meterTry (pm cm : Chars → Option (ℕ × Chars)) (t : Chars) : Option ℚ :=
  match meterPairSearch pm cm t with
  | some (p, c) =>
      let usage : ℤ := (c : ℤ) - (p : ℤ)
      if 50 < usage ∧ usage < 10000 then some ((usage : ℚ)) else none
  | none => none

/-- Priority 2 of `extract_usage_value`: the meter-reading calculation. -/
def meter_reading_scan (t : Chars) : Option ℚ :=
  meterTry mPrevReading1 mCurrReading1 t <|>
  meterTry mPrevRead2 mCurrRead2 t <|>
  meterTry mPrev3 mCurr3 t

/-- The first previous/current pattern pair (in the source's order) for which
both searches succeed, with its two captures. -/
def first_meter_pair (t : Chars) : Option (ℕ × ℕ) :=
  meterPairSearch mPrevReading1 mCurrReading1 t <|>
  meterPairSearch mPrevRead2 mCurrRead2 t <|>
  meterPairSearch mPrev3 mCurr3 t

/-- Greedy optional group with backtracking, used for `(?:bill\s+)?`. -/
def optConsume {α : Type} (m : Chars → Option Chars) (k : Chars → Option α)
    (cs : Chars) : Option α :=
  match m cs with
  | some cs2 => k cs2 <|> k cs
  | none => k cs

/-- Scanner for `Current\s+(?:bill\s+)?[Uu]sage[:\s]+(\d+\.?\d*)\s*kWh`. -/
def mCurrentUsage (cs : Chars) : Option (ℚ × Chars) := do
  let a ← lit "current".toList cs
  let b ← spaces1 a
  optConsume (fun x => do
      let y ← lit "bill".toList x
      spaces1 y)
    (fun x => do
      let c ← lit "usage".toList x
      let d ← colonSp1 c
      let (v, r) ← numCapture d
      let f ← lit "kwh".toList (sp r)
      pure (v, f)) b

/-- Scanner for `Billed\s+[Uu]sage[:\s]+(\d+\.?\d*)\s*kWh`. -/
def mBilledUsageLbl (cs : Chars) : Option (ℚ × Chars) := do
  let a ← lit "billed".toList cs
  let b ← spaces1 a
  let c ← lit "usage".toList b
  let d ← colonSp1 c
  let (v, r) ← numCapture d
  let f ← lit "kwh".toList (sp r)
  pure (v, f)

/-- Scanner for `Usage\s+for\s+this\s+period[:\s]+(\d+\.?\d*)\s*kWh`. -/
def mUsageForPeriod (cs : Chars) : Option (ℚ × Chars) := do
  let a ← lit "usage".toList cs
  let b ← spaces1 a
  let c ← lit "for".toList b
  let d ← spaces1 c
  let e ← lit "this".toList d
  let f ← spaces1 e
  let g ← lit "period".toList f
  let h ← colonSp1 g
  let (v, r) ← numCapture h
  let k ← lit "kwh".toList (sp r)
  pure (v, k)

/-- Scanner for `This\s+period[:\s]+(\d+\.?\d*)\s*kWh`. -/
def mThisPeriod (cs : Chars) : Option (ℚ × Chars) := do
  let a ← lit "this".toList cs
  let b ← spaces1 a
  let c ← lit "period".toList b
  let d ← colonSp1 c
  let (v, r) ← numCapture d
  let f ← lit "kwh".toList (sp r)
  pure (v, f)

/-- Scanner for `Usage:\s*(\d+)\s*kWh`. -/
def mUsageColonKwh (cs : Chars) : Option (ℚ × Chars) := do
  let a ← lit "usage:".toList cs
  let (n, rest) ← natCapture (sp a)
  let f ← lit "kwh".toList (sp rest)
  pure ((n : ℚ), f)

/-- Priority 3 of `extract_usage_value`: the `priority_patterns` loop. -/
def priority_label_scan (t : Chars) : Option ℚ :=
  tryFirstMatch mCurrentUsage t <|>
  tryFirstMatch mBilledUsageLbl t <|>
  tryFirstMatch mUsageForPeriod t <|>
  tryFirstMatch mThisPeriod t <|>
  tryFirstMatch mUsageColonKwh t

/-- Python's `text.split('\n')`. -/
def splitLines : Chars → List Chars
  | [] => [[]]
  | c :: rest =>
      if c = '\n' then [] :: splitLines rest
      else
        match splitLines rest with
        | l :: ls => (c :: l) :: ls
        | [] => [[c]]

/-- A word boundary `\b` holds before a word character when the previous
character (if any) is not a word character. -/
def boundaryOk : Option Char → Bool
  | none => true
  | some p => !isWordC p

/-- A word boundary holds after the matched word when the next character (if
any) is not a word character. -/
def wordEndOk : Chars → Bool
  | [] => true
  | c :: _ => !isWordC c

/-- Literal alternative of the average-line pattern, with its trailing `\b`. -/
def tryWordAt (w : String) (cs : Chars) : Bool :=
  match lit w.toList cs with
  | some rest => wordEndOk rest
  | none => false

/-- The `past\s+\d+\s+months` alternative, with its trailing `\b`. -/
def tryPastMonths (cs : Chars) : Bool :=
  match (do
    let a ← lit "past".toList cs
    let b ← spaces1 a
    let c ← digits1 b
    let d ← spaces1 c
    lit "months".toList d) with
  | some rest => wordEndOk rest
  | none => false

/-- Whether one alternative of `\b(avg|average|typical|historical|past\s+\d+\s+months)\b`
matches at this position. -/
def avgWordAt (cs : Chars) : Bool :=
  tryWordAt "avg" cs || tryWordAt "average" cs || tryWordAt "typical" cs ||
  tryWordAt "historical" cs || tryPastMonths cs

/-- Search worker carrying the previous character for the leading `\b`. -/
def hasAvgWordGo : Option Char → Chars → Bool
  | _, [] => false
  | prev, c :: cs => (boundaryOk prev && avgWordAt (c :: cs)) || hasAvgWordGo (some c) cs

/-- Whether a line matches the average/typical/historical exclusion pattern of
priority 4 of `extract_usage_value`. -/
def is_average_line (line : Chars) : Bool := hasAvgWordGo none line

/-- Scanner for `(\d+\.?\d*)\s*kWh`. -/
def mNumKwh (cs : Chars) : Option (ℚ × Chars) := do
  let (v, r) ← numCapture cs
  let f ← lit "kwh".toList (sp r)
  pure (v, f)

/-- Priority 4 of `extract_usage_value`: line-by-line scan skipping average
lines; a line's first match that is out of range moves on to the next line. -/
def line_scan : List Chars → Option ℚ
  | [] => none
  | l :: ls =>
      if is_average_line l then line_scan ls
      else
        match searchCap mNumKwh l with
        | some v => if inRange v then some v else line_scan ls
        | none => line_scan ls

/-- Priority 5 of `extract_usage_value`: any `kWh` value in the whole text. -/
def last_resort_scan (t : Chars) : Option ℚ :=
  match searchCap mNumKwh t with
  | some v => if inRange v then some v else none
  | none => none

/-- Model of `extract_usage_value` (src/src/utils.py, lines 578-724): the
five-priority cascade over the lower-cased text. -/
def extract_usage_value (s : String) : Option ℚ :=
  let t := lower s
  table_usage_scan t <|>
  billed_table_scan t <|>
  meter_reading_scan t <|>
  priority_label_scan t <|>
  line_scan (splitLines t) <|>
  last_resort_scan t

/-- Substring test, as Python's `in` on strings. -/
def containsSub (pat : Chars) : Chars → Bool
  | [] => pat.isPrefixOf ([] : Chars)
  | c :: cs => pat.isPrefixOf (c :: cs) || containsSub pat cs

/-- One membership test `kw in text.lower()` of `extract_usage_unit`. -/
def hasUnitKw (kw : String) (s : String) : Bool := containsSub kw.toList (lower s)

/-- Model of `extract_usage_unit` (src/src/utils.py, lines 727-740). -/
def extract_usage_unit (s : String) : String :=
  if hasUnitKw "kwh" s then "kWh"
  else if hasUnitKw "mwh" s then "MWh"
  else if hasUnitKw "therm" s then "therms"
  else if hasUnitKw "ccf" s then "CCF"
  else "kWh"

/-!
Confidence scoring and the three-tier orchestrator of `src/src/utils.py`.
The tier extractors (`extract_from_pdf_with_docling`, `..._ocr`, `..._ai`)
perform I/O against Docling, Tesseract and the Claude API; their result
dictionaries are therefore inputs of the orchestrator model.  A result
dictionary is modelled by the fields the orchestrator reads: `success`,
`confidence` (absent on Claude-Vision results and on some failures, read via
`dict.get` with default `0`) and `cost` (also read via `dict.get`).
-/

/-- The six extracted fields a tier produces (utils.py, lines 467-474). -/
structure ExtractedData where
  account_number : Option String
  service_start_date : Option String
  service_end_date : Option String
  total_usage : Option ℚ
  usage_unit : Option String
  total_cost : Option ℚ

/-- Model of `calculate_extraction_confidence` (utils.py, lines 770-790):
field-presence weighted score. -/
def calculate_extraction_confidence (d : ExtractedData) : ℚ :=
  (if d.account_number.isSome then (15 : ℚ)/100 else 0) +
  (if d.service_start_date.isSome then (15 : ℚ)/100 else 0) +
  (if d.service_end_date.isSome then (15 : ℚ)/100 else 0) +
  (if d.total_usage.isSome then (35 : ℚ)/100 else 0) +
  (if d.usage_unit.isSome then (5 : ℚ)/100 else 0) +
  (if d.total_cost.isSome then (15 : ℚ)/100 else 0)

/-- Model of the validator penalty applied inside the Docling and OCR tiers
(utils.py, lines 483-488 and 387-393): with at least one validation issue,
subtract `0.10` per issue capped at `0.30`, floored at `0`. -/
def adjusted_confidence (confidence : ℚ) (numIssues : ℕ) : ℚ :=
  if numIssues = 0 then confidence
  else max 0 (confidence - min ((numIssues : ℚ) * (10/100)) (30/100))

/-- The fields of a tier result dictionary that `extract_bill_data` reads. -/
structure TierResult where
  success : Bool
  confidence : Option ℚ
  cost : Option ℚ
deriving DecidableEq, Repr

/-- Python's `result.get("confidence", 0)`. -/
def TierResult.conf (r : TierResult) : ℚ := r.confidence.getD 0

/-- Python's `result.get("cost", 0)`. -/
def TierResult.costD (r : TierResult) : ℚ := r.cost.getD 0

/-- The orchestrator's return dictionary: the chosen tier dictionary plus the
keys `total_cost`, `tiers_used` and (on full failure) `all_tiers_failed` that
`extract_bill_data` adds.  The model also records which tier extractors were
actually invoked along the taken control path. -/
structure BillExtraction where
  result : TierResult
  total_cost : ℚ
  tiers_used : List String
  all_tiers_failed : Bool
  invoked : List String
deriving DecidableEq, Repr

/-- Python's `max(results, key=lambda x: x.get('confidence', 0))`: the first
element of maximal confidence (later elements replace only when strictly
greater). -/
def maxByConfidence (x : TierResult) (l : List TierResult) : TierResult :=
  l.foldl (fun b r => if b.conf < r.conf then r else b) x

/-- The `ALL TIERS FAILED` tail of `extract_bill_data` (utils.py, lines
933-948): return the best result by confidence among Docling and (when OCR
ran) OCR, tagged `all_tiers_failed`. -/
def ebd_all_failed (docling ocr : TierResult) (enableOcr enableAi : Bool)
    (totalCost : ℚ) (invoked : List String) : BillExtraction :=
  { result := maxByConfidence docling (if enableOcr then [ocr] else []),
    total_cost := totalCost,
    tiers_used :=
      if enableOcr && enableAi then ["Docling", "OCR", "Claude Vision"]
      else ["Docling", "Claude Vision"],
    all_tiers_failed := true,
    invoked := invoked }

/-- Tier 3 of `extract_bill_data` (utils.py, lines 899-928): when enabled, a
successful Claude-Vision result is returned unconditionally (no confidence
comparison); otherwise fall through to the all-failed tail. -/
def ebd_tier3 (docling ocr ai : TierResult) (enableOcr enableAi : Bool)
    (costSoFar : ℚ) (invoked : List String) : BillExtraction :=
  if enableAi then
    if ai.success then
      { result := ai, total_cost := costSoFar + ai.costD,
        tiers_used :=
          ["Docling (failed)"] ++ (if enableOcr then ["OCR (failed)"] else [])
            ++ ["Claude Vision"],
        all_tiers_failed := false, invoked := invoked ++ ["Claude Vision"] }
    else
      ebd_all_failed docling ocr enableOcr enableAi (costSoFar + ai.costD)
        (invoked ++ ["Claude Vision"])
  else ebd_all_failed docling ocr enableOcr enableAi costSoFar invoked

/-- Model of `extract_bill_data` (src/src/utils.py, lines 797-948),
parametrised by the three tier result dictionaries. -/
def extract_bill_data (docling ocr ai : TierResult) (confidenceThreshold : ℚ)
    (enableOcr enableAi : Bool) : BillExtraction :=
  if docling.success && decide (confidenceThreshold ≤ docling.conf) then
    { result := docling, total_cost := docling.costD, tiers_used := ["Docling"],
      all_tiers_failed := false, invoked := ["Docling"] }
  else if enableOcr then
    if ocr.success && decide (confidenceThreshold ≤ ocr.conf) then
      { result := ocr, total_cost := docling.costD + ocr.costD,
        tiers_used := ["Docling (failed)", "OCR"],
        all_tiers_failed := false, invoked := ["Docling", "OCR"] }
    else
      ebd_tier3 docling ocr ai enableOcr enableAi (docling.costD + ocr.costD)
        ["Docling", "OCR"]
  else ebd_tier3 docling ocr ai enableOcr enableAi docling.costD ["Docling"]

/-!
Emissions calculation, `src/src/calculate.py`.  The factor table is the
parsed `data/epa_factors.json` (not part of the sources); it is modelled as a
well-formed structure and passed explicitly, as `factors_data` is in the
batch path of the source.  Python's `round` (banker's rounding) is modelled
on `ℚ`.
-/

/-- Round half to even, as Python's built-in `round` on exact values. -/
def roundHalfEven (x : ℚ) : ℤ :=
  if x - ⌊x⌋ < 1/2 then ⌊x⌋
  else if 1/2 < x - ⌊x⌋ then ⌊x⌋ + 1
  else if ⌊x⌋ % 2 = 0 then ⌊x⌋ else ⌊x⌋ + 1

/-- Python's `round(x, d)`. -/
def round_to (d : ℕ) (x : ℚ) : ℚ :=
  (roundHalfEven (x * ((10 ^ d : ℕ) : ℚ)) : ℚ) / ((10 ^ d : ℕ) : ℚ)

/-- The parsed EPA factors file: the electricity factor dictionary plus the
metadata read by `calculate_electricity_emissions`. -/
structure FactorsData where
  electricity_factors : List (String × ℚ)
  electricity_unit : String
  data_source : String
  gwp_reference : String
  version : String

/-- Dictionary lookup `electricity_factors[region]` guarded by the
`region not in electricity_factors` test. -/
def lookup_factor (fd : FactorsData) (region : String) : Option ℚ :=
  (fd.electricity_factors.find? (fun p => p.1 == region)).map (·.2)

/-- A Python argument that may or may not be numeric (`isinstance(kwh,
(int, float))`). -/
inductive PyVal
  | num (q : ℚ)
  | nonNumeric (typeName : String)
deriving DecidableEq, Repr

/-- Numeric value of the argument, when it has one. -/
def PyVal.toNum : PyVal → Option ℚ
  | .num q => some q
  | .nonNumeric _ => none

/-- The exceptions `calculate_electricity_emissions` can raise. -/
inductive CalcError
  | typeError
  | negativeKwh
  | regionNotFound (region : String)
deriving DecidableEq, Repr

/-- The `data` and `audit` payload of the returned dictionary (the fields the
claims are about; timestamps and fixed prose omitted). -/
structure EmissionsRecord where
  scope : String
  input_value : ℚ
  input_unit : String
  region : String
  emissions_kg_co2e : ℚ
  emissions_mtco2e : ℚ
  emission_factor : ℚ
  emission_factor_unit : String
  emission_factor_source : String
deriving DecidableEq, Repr

/-- Model of `calculate_electricity_emissions` (src/src/calculate.py, lines
38-139): type check, negativity check, explicit region lookup (no default
substitution), then the calculation `kg = kwh * factor`, `mt = kg / 1000`,
stored as `round(kg, 2)` and `round(mt, 6)`. -/
def calculate_electricity_emissions (kwh : PyVal) (region : String)
    (factorsData : FactorsData) : Except CalcError EmissionsRecord :=
  match kwh.toNum with
  | none => .error .typeError
  | some q =>
      if q < 0 then .error .negativeKwh
      else
        match lookup_factor factorsData region with
        | none => .error (.regionNotFound region)
        | some f =>
            .ok { scope := "Scope 2 (Location-based)"
                  input_value := q
                  input_unit := "kWh"
                  region := region
                  emissions_kg_co2e := round_to 2 (q * f)
                  emissions_mtco2e := round_to 6 (q * f / 1000)
                  emission_factor := f
                  emission_factor_unit := factorsData.electricity_unit
                  emission_factor_source := factorsData.data_source }

/-- Example factor table for the concrete theorems (the production table is
loaded from `data/epa_factors.json` at run time; `ARKANSAS = 0.732` is the
value exercised by the source's own tests). -/
def sampleFactors : FactorsData :=
  { electricity_factors := [("US_AVERAGE", 81/200), ("ARKANSAS", 732/1000), ("TEXAS", 1/2)],
    electricity_unit := "kg CO2e per kWh",
    data_source := "EPA eGRID 2024",
    gwp_reference := "IPCC AR5",
    version := "2024" }

/-!
Report verification, `src/src/validation.py` and `src/src/reports.py`.
Warning messages are modelled as an inductive type whose constructors stand
for the fixed message templates of the source; `mentions_hallucination`
embeds the test `"hallucination" in w.lower()` of reports.py, which among
those templates holds exactly for the `HALLUCINATION DETECTED` template.
-/

/-- The source dictionary handed to report generation; the field read by the
accuracy verifier is `metric_tons_co2`. -/
structure EmissionsData where
  metric_tons_co2 : ℚ
deriving DecidableEq, Repr

/-- Warning messages produced by validation.py / reports.py.  Constructors
correspond to the literal message templates:
`Validation Error: ...`, `API Error: ...`,
`Report value ... differs by ...% from source ...`,
`No numeric values found in report`,
`UNIT ERROR: Report contains ... (likely ...)`,
`HALLUCINATION DETECTED: Expected ..., but report contains ... (deviation ...%)`,
`Expected value ... not found in report text`,
`Report missing required sections: ...`,
`Warning: Generated report is unusually short (< 200 characters)`. -/
inductive RWarning
  | validationError (msg : String)
  | apiError (msg : String)
  | accuracyNote (closest expected deviationPct : ℚ)
  | noNumbers
  | unitError (variantValue expected : ℚ) (unitShort : String)
  | hallucinationDetected (closest expected deviationPct : ℚ)
  | valueNotFound (expected : ℚ)
  | missingSections (sections : List String)
  | tooShort
deriving DecidableEq, Repr

/-- Embeds `"hallucination" in w.lower()` (reports.py, line 150): of the nine
message templates above, only `HALLUCINATION DETECTED: ...` contains the word
`hallucination` (case-insensitively). -/
def RWarning.mentions_hallucination : RWarning → Bool
  | .hallucinationDetected _ _ _ => true
  | _ => false

/-- Keyword continuation matcher: consumes one emission keyword regex, then
hands the rest to the continuation (with backtracking over greedy `?`). -/
abbrev KwM := (Chars → Option (ℚ × Chars)) → Chars → Option (ℚ × Chars)

/-- Keyword regex `emissions?`. -/
def kwEmissions : KwM := fun k cs =>
  match lit "emission".toList cs with
  | some a => optConsume (lit ['s']) k a
  | none => none

/-- Keyword regex `co2e?`. -/
def kwCo2e : KwM := fun k cs =>
  match lit "co2".toList cs with
  | some a => optConsume (lit ['e']) k a
  | none => none

/-- Keyword regex `metric\s+tons?`. -/
def kwMetricTons : KwM := fun k cs =>
  match (do
    let a ← lit "metric".toList cs
    let b ← spaces1 a
    lit "ton".toList b) with
  | some c => optConsume (lit ['s']) k c
  | none => none

/-- Keyword regex `mtco2e`. -/
def kwMtco2e : KwM := fun k cs => (lit "mtco2e".toList cs).bind k

/-- Keyword regex `carbon`. -/
def kwCarbon : KwM := fun k cs => (lit "carbon".toList cs).bind k

/-- Keyword regex `greenhouse\s+gas`. -/
def kwGreenhouseGas : KwM := fun k cs =>
  (do
    let a ← lit "greenhouse".toList cs
    let b ← spaces1 a
    lit "gas".toList b).bind k

/-- Keyword regex `ghg`. -/
def kwGhg : KwM := fun k cs => (lit "ghg".toList cs).bind k

/-- The `emission_keywords` list of `verify_report_accuracy`, in source
order. -/
def emission_keywords : List KwM :=
  [kwEmissions, kwCo2e, kwMetricTons, kwMtco2e, kwCarbon, kwGreenhouseGas, kwGhg]

/-- Scanner for a proximity pattern of the first family,
`{kw}[:\s]+(\d+\.?\d*)`. -/
def proximityPat1 (kw : KwM) (cs : Chars) : Option (ℚ × Chars) :=
  kw (fun rest => do
    let d ← colonSp1 rest
    numCapture d) cs

/-- Scanner for a proximity pattern of the second family,
`(\d+\.?\d*)\s+{kw}`. -/
def proximityPat2 (kw : KwM) (cs : Chars) : Option (ℚ × Chars) := do
  let (v, r) ← numCapture cs
  let s ← spaces1 r
  kw (fun rest => pure (v, rest)) s

/-- All values captured by the proximity patterns, in the source's pattern
order (all pattern-1 instances, then all pattern-2 instances). -/
def proximity_values (t : Chars) : List ℚ :=
  (emission_keywords.map (fun kw => searchAll (proximityPat1 kw) t)).flatten ++
  (emission_keywords.map (fun kw => searchAll (proximityPat2 kw) t)).flatten

/-- The fallback `re.findall(r'\d+\.?\d*', report_text)` as values. -/
def all_numbers (t : Chars) : List ℚ := searchAll numCapture t

/-- The `found_values` list of `verify_report_accuracy` after the fallback. -/
def found_values (t : Chars) : List ℚ :=
  let p := proximity_values t
  if p.isEmpty then all_numbers t else p

/-- Python's `min(l, key=lambda x: abs(x - e))` over `x :: l`: the first
element of minimal distance to `e`. -/
def closestTo (e : ℚ) (x : ℚ) (l : List ℚ) : ℚ :=
  l.foldl (fun b v => if |v - e| < |b - e| then v else b) x

/-- The `unit_variants` loop of `verify_report_accuracy` (validation.py,
lines 179-192), checked in order kg, lb, g. -/
def unitCheck (found : List ℚ) (tol : ℚ) (expected : ℚ) :
    List (ℚ × String) → Option RWarning
  | [] => none
  | (vv, u) :: rest =>
      if found.any (fun v => decide (|v - vv| ≤ |vv * tol / 100|)) then
        some (.unitError vv expected u)
      else unitCheck found tol expected rest

/-- The acceptance-band filter `[v for v in found_values if min_acceptable <=
v <= max_acceptable]` of `verify_report_accuracy` (validation.py, lines
151-159). -/
def band_filter (found : List ℚ) (expected tol : ℚ) : List ℚ :=
  found.filter (fun v =>
    decide (expected - |expected * tol / 100| ≤ v) &&
    decide (v ≤ expected + |expected * tol / 100|))

/-- The `if matches:` branch of `verify_report_accuracy` (validation.py,
lines 161-169): exact match gives no warning, a near match an informational
note with the percentage deviation. -/
def verify_match_branch (expected : ℚ) (m : ℚ) (ms : List ℚ) :
    Bool × Option RWarning :=
  if |(closestTo expected m ms - expected) / expected * 100| = 0 then (true, none)
  else
    (true, some (.accuracyNote (closestTo expected m ms) expected
      (|(closestTo expected m ms - expected) / expected * 100|)))

/-- The tail of `verify_report_accuracy` when no found value is in the band
(validation.py, lines 171-206): unit-conversion check, then hallucination
detection (`if closest_value:` is Python truthiness, false at `0.0`). -/
def verify_no_match_branch (expected tol : ℚ) (found : List ℚ) :
    Bool × Option RWarning :=
  match unitCheck found tol expected
      [(expected * 1000, "kg"), (expected * (220462/100), "lb"),
       (expected * 1000000, "g")] with
  | some w => (false, some w)
  | none =>
      match found with
      | f :: fs =>
          if closestTo expected f fs ≠ 0 then
            (false, some (.hallucinationDetected (closestTo expected f fs) expected
              (|(|closestTo expected f fs - expected|) / expected * 100|)))
          else (false, some (.valueNotFound expected))
      | [] => (false, some (.valueNotFound expected))

/-- Model of `verify_report_accuracy` (src/src/validation.py, lines 80-206):
keyword-proximity collection with numeric fallback, percentage tolerance
band, unit-conversion check, and hallucination detection.  (With
`expected = 0` the source raises `ZeroDivisionError` computing the deviation
percentage; the model's total division makes that case return `(true, none)`,
and the theorems below assume `expected > 0`.) -/
def verify_report_accuracy (reportText : String) (emissionsData : EmissionsData)
    (tolerancePercent : ℚ) : Bool × Option RWarning :=
  let expected := emissionsData.metric_tons_co2
  let found := found_values (lower reportText)
  if found.isEmpty then (false, some .noNumbers)
  else
    match band_filter found expected tolerancePercent with
    | m :: ms => verify_match_branch expected m ms
    | [] => verify_no_match_branch expected tolerancePercent found

/-- The default `required_topics` of `validate_report_completeness`
(validation.py, lines 223-229), in dictionary order. -/
def required_topics : List (String × List String) :=
  [("reporting_period", ["reporting period", "period", "2024", "2025", "december", "january"]),
   ("emissions_value", ["metric tons", "mtco2e", "co2e", "emissions", "tonnes"]),
   ("methodology", ["methodology", "calculation", "formula", "method", "approach"]),
   ("emission_factor", ["emission factor", "egrid", "epa", "factor", "coefficient"]),
   ("data_quality", ["quality", "limitation", "uncertainty", "assumption", "exclusion"])]

/-- Model of `validate_report_completeness` (src/src/validation.py, lines
209-241) with the default section list. -/
def validate_report_completeness (reportText : String) : Bool × List String :=
  let t := lower reportText
  let missing :=
    (required_topics.filter (fun tk => !(tk.2.any (fun kw => containsSub (lower kw) t)))).map
      Prod.fst
  (missing.isEmpty, missing)

/-- Outcome of the Claude API call made in step 3 of
`generate_gri_report_section`; the call is I/O, so it is a parameter. -/
inductive ApiOutcome
  | ok (response : String) (cost : ℚ)
  | failed (msg : String)

/-- The dictionary returned by `generate_gri_report_section`. -/
structure ReportResult where
  report_text : Option String
  cost : ℚ
  validation_passed : Bool
  warnings : List RWarning
deriving DecidableEq, Repr

/-- Model of `generate_gri_report_section` (src/src/reports.py, lines 7-153).
The pre-call validator verdict (step 1) and the API outcome (step 3) are
parameters; steps 4 and 5 are modelled in full.  In the unreachable source
case `not is_accurate and warning_msg is None` the source would append `None`
to `warnings` (and later crash on `None.lower()`); the model appends
nothing. -/
def generate_gri_report_section (emissionsData : EmissionsData)
    (precheck : Bool × Option String) (api : ApiOutcome) : ReportResult :=
  if precheck.1 = false then
    { report_text := none, cost := 0, validation_passed := false,
      warnings := [.validationError (precheck.2.getD "")] }
  else
    match api with
    | .failed msg =>
        { report_text := none, cost := 0, validation_passed := false,
          warnings := [.apiError msg] }
    | .ok response cost =>
        let vr := verify_report_accuracy response emissionsData (1/10)
        let warnings1 : List RWarning :=
          if !vr.1 || vr.2.isSome then vr.2.toList else []
        let cr := validate_report_completeness response
        let warnings2 := warnings1 ++ (if cr.1 then [] else [.missingSections cr.2])
        let warnings3 := warnings2 ++ (if response.length < 200 then [.tooShort] else [])
        { report_text := some response, cost := cost,
          validation_passed :=
            (warnings3.filter RWarning.mentions_hallucination).length == 0,
          warnings := warnings3 }

/-!
Helper lemmas.
-/

/-- Rounding half to even moves a rational by at most one half. -/
theorem roundHalfEven_sub_le (x : ℚ) : |(roundHalfEven x : ℚ) - x| ≤ 1/2 := by
  have h1 : (⌊x⌋ : ℚ) ≤ x := Int.floor_le x
  have h2 : x < ⌊x⌋ + 1 := Int.lt_floor_add_one x
  unfold roundHalfEven
  split_ifs with ha hb hc <;> push_cast <;> rw [abs_le] <;>
    constructor <;> linarith

/-- Decimal rounding to `d` places moves a rational by at most half an ulp. -/
theorem round_to_sub_le (d : ℕ) (x : ℚ) :
    |round_to d x - x| ≤ 1 / (2 * ((10 ^ d : ℕ) : ℚ)) := by
  have hp : (0 : ℚ) < ((10 ^ d : ℕ) : ℚ) := by positivity
  have h := roundHalfEven_sub_le (x * ((10 ^ d : ℕ) : ℚ))
  have hx : round_to d x - x =
      ((roundHalfEven (x * ((10 ^ d : ℕ) : ℚ)) : ℚ) - x * ((10 ^ d : ℕ) : ℚ)) /
        ((10 ^ d : ℕ) : ℚ) := by
    rw [round_to]; field_simp; ring
  rw [hx, abs_div, abs_of_pos hp, div_le_div_iff₀ hp (by positivity)]
  nlinarith [abs_nonneg ((roundHalfEven (x * ((10 ^ d : ℕ) : ℚ)) : ℚ) - x * ((10 ^ d : ℕ) : ℚ))]

/-- The first minimiser returned by `closestTo` is an element of the list. -/
theorem closestTo_mem (e : ℚ) (x : ℚ) (l : List ℚ) : closestTo e x l ∈ x :: l := by
  induction l generalizing x with
  | nil => simp [closestTo]
  | cons v l ih =>
      have step : closestTo e x (v :: l) =
          closestTo e (if |v - e| < |x - e| then v else x) l := rfl
      rw [step]
      have h := ih (if |v - e| < |x - e| then v else x)
      rcases List.mem_cons.mp h with h1 | h1
      · rw [h1]; split_ifs <;> simp
      · exact List.mem_cons_of_mem _ (List.mem_cons_of_mem _ h1)

/-- The value returned by `closestTo` minimises the distance to `e`. -/
theorem closestTo_min (e : ℚ) (x : ℚ) (l : List ℚ) :
    ∀ v ∈ x :: l, |closestTo e x l - e| ≤ |v - e| := by
  induction l generalizing x with
  | nil =>
      intro v hv
      rcases List.mem_cons.mp hv with rfl | h
      · exact le_refl _
      · exact absurd h (List.not_mem_nil v)
  | cons w l ih =>
      intro v hv
      have step : closestTo e x (w :: l) =
          closestTo e (if |w - e| < |x - e| then w else x) l := rfl
      have hb := ih (if |w - e| < |x - e| then w else x)
        (if |w - e| < |x - e| then w else x) (List.mem_cons_self _ _)
      rw [step]
      rcases List.mem_cons.mp hv with rfl | hv2
      · refine hb.trans ?_
        split_ifs with hw
        · exact le_of_lt hw
        · exact le_refl _
      · rcases List.mem_cons.mp hv2 with rfl | hv3
        · refine hb.trans ?_
          split_ifs with hw
          · exact le_refl _
          · exact le_of_not_lt hw
        · exact ih _ v (List.mem_cons_of_mem _ hv3)

/-- A tier whose success-and-threshold test fails yields a false guard. -/
theorem tier_gate_false {r : TierResult} {threshold : ℚ}
    (h : ¬(r.success = true ∧ threshold ≤ r.conf)) :
    (r.success && decide (threshold ≤ r.conf)) = false := by
  by_cases hh : (r.success && decide (threshold ≤ r.conf)) = true
  · rw [Bool.and_eq_true] at hh
    exact absurd ⟨hh.1, of_decide_eq_true hh.2⟩ h
  · exact Bool.eq_false_iff.mpr hh

/-!
Claim theorems.
-/

/-- C10: `extract_usage_unit` is total and returns one of the four unit
strings, defaulting to `kWh`; the checks are ordered, so any text containing
`kwh` (case-insensitively) yields `kWh`, and `MWh` is returned exactly when
`mwh` occurs but `kwh` does not. -/
theorem C10_usage_unit_total (s : String) :
    (extract_usage_unit s = "kWh" ∨ extract_usage_unit s = "MWh" ∨
      extract_usage_unit s = "therms" ∨ extract_usage_unit s = "CCF") ∧
    (hasUnitKw "kwh" s = true → extract_usage_unit s = "kWh") ∧
    (extract_usage_unit s = "MWh" ↔
      (hasUnitKw "kwh" s = false ∧ hasUnitKw "mwh" s = true)) ∧
    (hasUnitKw "kwh" s = false → hasUnitKw "mwh" s = false →
      hasUnitKw "therm" s = false → hasUnitKw "ccf" s = false →
      extract_usage_unit s = "kWh") := by
  cases h1 : hasUnitKw "kwh" s <;>
    cases h2 : hasUnitKw "mwh" s <;>
      cases h3 : hasUnitKw "therm" s <;>
        cases h4 : hasUnitKw "ccf" s <;>
          simp [extract_usage_unit, h1, h2, h3, h4]

/-- Witness for C10 at a text containing both `kWh` and `MWh`. -/
theorem C10_usage_unit_total_witness :
    extract_usage_unit "850 kWh (about 0.85 MWh)" = "kWh" :=
  (C10_usage_unit_total "850 kWh (about 0.85 MWh)").2.1 (by decide)

/-- C5: `calculate_electricity_emissions` raises a type error exactly on
non-numeric input, a value error on negative input or on a region absent from
the factor table (never substituting a default region's factor), and
otherwise returns a record. -/
theorem C5_exception_behaviour (kwh : PyVal) (region : String) (fd : FactorsData) :
    (calculate_electricity_emissions kwh region fd = .error .typeError ↔
      kwh.toNum = none) ∧
    (∀ q : ℚ, kwh.toNum = some q → q < 0 →
      calculate_electricity_emissions kwh region fd = .error .negativeKwh) ∧
    (∀ q : ℚ, kwh.toNum = some q → 0 ≤ q → lookup_factor fd region = none →
      calculate_electricity_emissions kwh region fd = .error (.regionNotFound region)) ∧
    (∀ q f : ℚ, kwh.toNum = some q → 0 ≤ q → lookup_factor fd region = some f →
      ∃ rec : EmissionsRecord,
        calculate_electricity_emissions kwh region fd = .ok rec) := by
  cases kwh with
  | nonNumeric t =>
      refine ⟨by simp [calculate_electricity_emissions, PyVal.toNum], ?_, ?_, ?_⟩ <;>
        intro q <;> first
          | (intro h; exact absurd h (by simp [PyVal.toNum]))
          | (intro f h; exact absurd h (by simp [PyVal.toNum]))
  | num q0 =>
      simp only [calculate_electricity_emissions, PyVal.toNum]
      by_cases hq : q0 < 0
      · rw [if_pos hq]
        refine ⟨by simp, ?_, ?_, ?_⟩
        · intro q h1 h2; rfl
        · intro q h1 h2 h3
          injection h1 with h1; subst h1
          exact absurd hq (not_lt.mpr h2)
        · intro q f h1 h2 h3
          injection h1 with h1; subst h1
          exact absurd hq (not_lt.mpr h2)
      · rw [if_neg hq]
        cases hlf : lookup_factor fd region with
        | none =>
            refine ⟨by simp, ?_, ?_, ?_⟩
            · intro q h1 h2
              injection h1 with h1; subst h1
              exact absurd h2 hq
            · intro q h1 h2 h3; rfl
            · intro q f h1 h2 h3
              cases h3
        | some f0 =>
            refine ⟨by simp, ?_, ?_, ?_⟩
            · intro q h1 h2
              injection h1 with h1; subst h1
              exact absurd h2 hq
            · intro q h1 h2 h3
              cases h3
            · intro q f h1 h2 h3
              exact ⟨_, rfl⟩

/-- Witness for C5: region `MARS` with a valid usage raises the
region-not-found error against the example factor table. -/
theorem C5_exception_behaviour_witness :
    calculate_electricity_emissions (.num 100) "MARS" sampleFactors =
      .error (.regionNotFound "MARS") :=
  (C5_exception_behaviour (.num 100) "MARS" sampleFactors).2.2.1 100 rfl
    (by norm_num) (by decide)

/-- Counterexample to C6: at `kwh = 1`, factor `0.732`, the stored
`emissions_kg_co2e` is the rounded `0.73`, not the exact product `0.732`,
and the stored metric tons value `0.000732` is not the stored kilogram value
divided by `1000`. -/
theorem C6_counterexample :
    (calculate_electricity_emissions (.num 1) "ARKANSAS" sampleFactors).toOption.map
        (fun r => (r.emissions_kg_co2e, r.emissions_mtco2e)) =
      some (73/100, 732/1000000) ∧
    (73/100 : ℚ) ≠ 1 * (732/1000) ∧
    (732/1000000 : ℚ) ≠ (73/100 : ℚ) / 1000 := by
  refine ⟨by decide, by decide, by decide⟩

/-- C6 as amended: the returned record stores the display-rounded values
`round(kwh * factor, 2)` kilograms and `round(kwh * factor / 1000, 6)` metric
tons, each within half an ulp of the exact product. -/
theorem C6_rounded_storage (q f : ℚ) (region : String) (fd : FactorsData)
    (hq : 0 ≤ q) (hf : lookup_factor fd region = some f) :
    ∃ rec : EmissionsRecord,
      calculate_electricity_emissions (.num q) region fd = .ok rec ∧
      rec.emissions_kg_co2e = round_to 2 (q * f) ∧
      rec.emissions_mtco2e = round_to 6 (q * f / 1000) ∧
      |rec.emissions_kg_co2e - q * f| ≤ 1/200 ∧
      |rec.emissions_mtco2e - q * f / 1000| ≤ 1/2000000 := by
  have h2 := round_to_sub_le 2 (q * f)
  have h6 := round_to_sub_le 6 (q * f / 1000)
  refine ⟨{ scope := "Scope 2 (Location-based)", input_value := q, input_unit := "kWh",
            region := region, emissions_kg_co2e := round_to 2 (q * f),
            emissions_mtco2e := round_to 6 (q * f / 1000), emission_factor := f,
            emission_factor_unit := fd.electricity_unit,
            emission_factor_source := fd.data_source }, ?_, rfl, rfl, ?_, ?_⟩
  · simp only [calculate_electricity_emissions, PyVal.toNum, hf, if_neg (not_lt.mpr hq)]
  · have hc : ((10 ^ 2 : ℕ) : ℚ) = 100 := by norm_num
    rw [hc] at h2
    linarith
  · have hc : ((10 ^ 6 : ℕ) : ℚ) = 1000000 := by norm_num
    rw [hc] at h6
    linarith

/-- Witness for C6 as amended, at `kwh = 850`, `region = ARKANSAS`. -/
theorem C6_rounded_storage_witness :
    ∃ rec : EmissionsRecord,
      calculate_electricity_emissions (.num 850) "ARKANSAS" sampleFactors = .ok rec ∧
      rec.emissions_kg_co2e = round_to 2 (850 * (732/1000)) ∧
      rec.emissions_mtco2e = round_to 6 (850 * (732/1000) / 1000) ∧
      |rec.emissions_kg_co2e - 850 * (732/1000)| ≤ 1/200 ∧
      |rec.emissions_mtco2e - 850 * (732/1000) / 1000| ≤ 1/2000000 :=
  C6_rounded_storage 850 (732/1000) "ARKANSAS" sampleFactors (by norm_num) (by decide)

/-- C2: when tier 1 succeeds with (penalty-adjusted) confidence at or above
the threshold, the orchestrator returns the tier-1 result immediately; tiers
2 and 3 are never invoked and the total cost is tier 1's cost alone. -/
theorem C2_tier1_short_circuit (docling ocr ai : TierResult) (threshold : ℚ)
    (enableOcr enableAi : Bool) (hs : docling.success = true)
    (hc : threshold ≤ docling.conf) :
    extract_bill_data docling ocr ai threshold enableOcr enableAi =
      { result := docling, total_cost := docling.costD, tiers_used := ["Docling"],
        all_tiers_failed := false, invoked := ["Docling"] } := by
  simp [extract_bill_data, hs, hc]

/-- Witness for C2: a fake tier-1 result of confidence `0.90` against
threshold `0.85` is returned with tiers 2 and 3 uninvoked. -/
theorem C2_tier1_short_circuit_witness :
    extract_bill_data ⟨true, some (9/10), some (1/10000)⟩
        ⟨true, some 0, some (1/1000)⟩ ⟨true, none, some (1/50)⟩ (17/20) true true =
      { result := ⟨true, some (9/10), some (1/10000)⟩, total_cost := 1/10000,
        tiers_used := ["Docling"], all_tiers_failed := false,
        invoked := ["Docling"] } :=
  C2_tier1_short_circuit ⟨true, some (9/10), some (1/10000)⟩
    ⟨true, some 0, some (1/1000)⟩ ⟨true, none, some (1/50)⟩ (17/20) true true rfl
    (by decide)

/-- C3: when no enabled tier clears the threshold, the orchestrator returns
the better of the attempted Docling/OCR results by confidence (first on
ties), tagged `all_tiers_failed`, with total cost the sum over the tiers
attempted. -/
theorem C3_best_fallback (docling ocr ai : TierResult) (threshold : ℚ)
    (enableOcr enableAi : Bool)
    (hd : ¬(docling.success = true ∧ threshold ≤ docling.conf))
    (ho : enableOcr = true → ¬(ocr.success = true ∧ threshold ≤ ocr.conf))
    (ha : enableAi = true → ai.success = false) :
    (extract_bill_data docling ocr ai threshold enableOcr enableAi).all_tiers_failed = true ∧
    ((extract_bill_data docling ocr ai threshold enableOcr enableAi).result = docling ∨
      (enableOcr = true ∧
        (extract_bill_data docling ocr ai threshold enableOcr enableAi).result = ocr)) ∧
    docling.conf ≤ (extract_bill_data docling ocr ai threshold enableOcr enableAi).result.conf ∧
    (enableOcr = true →
      ocr.conf ≤ (extract_bill_data docling ocr ai threshold enableOcr enableAi).result.conf) ∧
    (extract_bill_data docling ocr ai threshold enableOcr enableAi).total_cost =
      docling.costD + (if enableOcr then ocr.costD else 0) +
        (if enableAi then ai.costD else 0) := by
  have h1 : (docling.success && decide (threshold ≤ docling.conf)) = false :=
    tier_gate_false hd
  cases hEO : enableOcr with
  | true =>
      have h3 : (ocr.success && decide (threshold ≤ ocr.conf)) = false :=
        tier_gate_false (ho hEO)
      cases hEA : enableAi with
      | true =>
          have h5 : ai.success = false := ha hEA
          by_cases hcmp : docling.conf < ocr.conf <;>
            simp [extract_bill_data, h1, h3, h5, ebd_tier3, ebd_all_failed,
              maxByConfidence, hcmp, le_of_lt, le_of_not_lt, add_assoc]
      | false =>
          by_cases hcmp : docling.conf < ocr.conf <;>
            simp [extract_bill_data, h1, h3, ebd_tier3, ebd_all_failed,
              maxByConfidence, hcmp, le_of_lt, le_of_not_lt]
  | false =>
      cases hEA : enableAi with
      | true =>
          have h5 : ai.success = false := ha hEA
          simp [extract_bill_data, h1, h5, ebd_tier3, ebd_all_failed, maxByConfidence]
      | false =>
          simp [extract_bill_data, h1, ebd_tier3, ebd_all_failed, maxByConfidence]

/-- Witness for C3: tier 1 and tier 2 both at confidence `0.40` with tier 3
disabled yield the tier-1 result (first of the tie), flagged
`all_tiers_failed`, at cumulative cost `0.0001 + 0.001`. -/
theorem C3_best_fallback_witness :
    (extract_bill_data ⟨true, some (2/5), some (1/10000)⟩
        ⟨true, some (2/5), some (1/1000)⟩ ⟨false, none, none⟩
        (17/20) true false).all_tiers_failed = true ∧
    (extract_bill_data ⟨true, some (2/5), some (1/10000)⟩
        ⟨true, some (2/5), some (1/1000)⟩ ⟨false, none, none⟩
        (17/20) true false).result = ⟨true, some (2/5), some (1/10000)⟩ ∧
    (extract_bill_data ⟨true, some (2/5), some (1/10000)⟩
        ⟨true, some (2/5), some (1/1000)⟩ ⟨false, none, none⟩
        (17/20) true false).total_cost = 1/10000 + 1/1000 := by
  have h := C3_best_fallback ⟨true, some (2/5), some (1/10000)⟩
    ⟨true, some (2/5), some (1/1000)⟩ ⟨false, none, none⟩ (17/20) true false
    (by intro hh; exact absurd hh.2 (by decide)) (fun _ => by intro hh; exact absurd hh.2 (by decide))
    (fun hh => by cases hh)
  refine ⟨h.1, by decide, by decide⟩

/-- Counterexample to C4: with tier 1 failing, OCR disabled and a successful
Claude-Vision result carrying no confidence field, the orchestrator accepts
tier 3's result without the `all_tiers_failed` tag although its confidence
(read as `0`) is below the `0.85` threshold. -/
theorem C4_counterexample :
    (extract_bill_data ⟨false, some 0, none⟩ ⟨false, none, none⟩
        ⟨true, none, some (1/50)⟩ (17/20) false true).all_tiers_failed = false ∧
    (extract_bill_data ⟨false, some 0, none⟩ ⟨false, none, none⟩
        ⟨true, none, some (1/50)⟩ (17/20) false true).result =
      ⟨true, none, some (1/50)⟩ ∧
    (extract_bill_data ⟨false, some 0, none⟩ ⟨false, none, none⟩
        ⟨true, none, some (1/50)⟩ (17/20) false true).result.conf < 17/20 := by
  refine ⟨by decide, by decide, by decide⟩

/-- C4 as amended: a result accepted without the `all_tiers_failed` tag is
either the tier-1 or tier-2 result, whose penalty-adjusted confidence
(`0.10` per issue capped at `0.30`) cleared the threshold, or the tier-3
Claude-Vision result, which is accepted on success with no confidence
comparison at all. -/
theorem C4_tier12_gate (docling ocr ai : TierResult) (threshold : ℚ)
    (enableOcr enableAi : Bool) (baseD baseO : ℚ) (issuesD issuesO : ℕ)
    (hdc : docling.confidence = some (adjusted_confidence baseD issuesD))
    (hoc : ocr.confidence = some (adjusted_confidence baseO issuesO))
    (hnf : (extract_bill_data docling ocr ai threshold enableOcr enableAi).all_tiers_failed
      = false) :
    ((extract_bill_data docling ocr ai threshold enableOcr enableAi).result = docling ∧
      threshold ≤ adjusted_confidence baseD issuesD) ∨
    ((extract_bill_data docling ocr ai threshold enableOcr enableAi).result = ocr ∧
      threshold ≤ adjusted_confidence baseO issuesO) ∨
    (extract_bill_data docling ocr ai threshold enableOcr enableAi).result = ai := by
  have hdconf : docling.conf = adjusted_confidence baseD issuesD := by
    rw [TierResult.conf, hdc]; rfl
  have hoconf : ocr.conf = adjusted_confidence baseO issuesO := by
    rw [TierResult.conf, hoc]; rfl
  by_cases h1 : (docling.success && decide (threshold ≤ docling.conf)) = true
  · left
    constructor
    · simp [extract_bill_data, h1]
    · rw [Bool.and_eq_true] at h1
      rw [← hdconf]
      exact of_decide_eq_true h1.2
  · rw [Bool.not_eq_true] at h1
    cases hEO : enableOcr with
    | true =>
        by_cases h3 : (ocr.success && decide (threshold ≤ ocr.conf)) = true
        · right; left
          constructor
          · simp [extract_bill_data, h1, h3]
          · rw [Bool.and_eq_true] at h3
            rw [← hoconf]
            exact of_decide_eq_true h3.2
        · rw [Bool.not_eq_true] at h3
          cases h5 : ai.success with
          | true =>
              cases hEA : enableAi with
              | true =>
                  right; right
                  simp [extract_bill_data, h1, h3, ebd_tier3, h5]
              | false =>
                  rw [hEO, hEA] at hnf
                  simp [extract_bill_data, h1, h3, ebd_tier3, ebd_all_failed] at hnf
          | false =>
              cases hEA : enableAi with
              | true =>
                  rw [hEO, hEA] at hnf
                  simp [extract_bill_data, h1, h3, h5, ebd_tier3, ebd_all_failed] at hnf
              | false =>
                  rw [hEO, hEA] at hnf
                  simp [extract_bill_data, h1, h3, ebd_tier3, ebd_all_failed] at hnf
    | false =>
        cases h5 : ai.success with
        | true =>
            cases hEA : enableAi with
            | true =>
                right; right
                simp [extract_bill_data, h1, ebd_tier3, h5]
            | false =>
                rw [hEO, hEA] at hnf
                simp [extract_bill_data, h1, ebd_tier3, ebd_all_failed] at hnf
        | false =>
            cases hEA : enableAi with
            | true =>
                rw [hEO, hEA] at hnf
                simp [extract_bill_data, h1, h5, ebd_tier3, ebd_all_failed] at hnf
            | false =>
                rw [hEO, hEA] at hnf
                simp [extract_bill_data, h1, ebd_tier3, ebd_all_failed] at hnf

/-- Witness for C4 as amended, at a tier-1 acceptance whose confidence is the
penalty-adjusted value `adjusted_confidence 1.0 1 = 0.90`. -/
theorem C4_tier12_gate_witness :
    ((extract_bill_data ⟨true, some (adjusted_confidence 1 1), some (1/10000)⟩
        ⟨false, some (adjusted_confidence 0 0), none⟩ ⟨true, none, some (1/50)⟩
        (17/20) true true).result =
      ⟨true, some (adjusted_confidence 1 1), some (1/10000)⟩ ∧
      (17/20 : ℚ) ≤ adjusted_confidence 1 1) ∨
    ((extract_bill_data ⟨true, some (adjusted_confidence 1 1), some (1/10000)⟩
        ⟨false, some (adjusted_confidence 0 0), none⟩ ⟨true, none, some (1/50)⟩
        (17/20) true true).result =
      ⟨false, some (adjusted_confidence 0 0), none⟩ ∧
      (17/20 : ℚ) ≤ adjusted_confidence 0 0) ∨
    (extract_bill_data ⟨true, some (adjusted_confidence 1 1), some (1/10000)⟩
        ⟨false, some (adjusted_confidence 0 0), none⟩ ⟨true, none, some (1/50)⟩
        (17/20) true true).result = ⟨true, none, some (1/50)⟩ :=
  C4_tier12_gate ⟨true, some (adjusted_confidence 1 1), some (1/10000)⟩
    ⟨false, some (adjusted_confidence 0 0), none⟩ ⟨true, none, some (1/50)⟩
    (17/20) true true 1 0 1 0 rfl rfl (by decide)

/-- A meter-pattern pair whose searches both match, with an in-range
difference, makes its loop iteration return `current - previous`. -/
theorem meterTry_some {pm cm : Chars → Option (ℕ × Chars)} {t : Chars} {p c : ℕ}
    (h : meterPairSearch pm cm t = some (p, c))
    (h5 : 50 < (c : ℤ) - (p : ℤ)) (h6 : (c : ℤ) - (p : ℤ) < 10000) :
    meterTry pm cm t = some (((c : ℤ) - (p : ℤ) : ℤ) : ℚ) := by
  unfold meterTry
  rw [h]
  simp [h5, h6]

/-- A meter-pattern pair that does not both-match contributes nothing. -/
theorem meterTry_none {pm cm : Chars → Option (ℕ × Chars)} {t : Chars}
    (h : meterPairSearch pm cm t = none) : meterTry pm cm t = none := by
  unfold meterTry
  rw [h]

/-- If the first both-matching meter pattern pair yields captures whose
difference is in the plausible range, the meter-reading stage returns that
difference. -/
theorem meter_scan_of_first_pair (t : Chars) (p c : ℕ)
    (h : first_meter_pair t = some (p, c))
    (h5 : 50 < (c : ℤ) - (p : ℤ)) (h6 : (c : ℤ) - (p : ℤ) < 10000) :
    meter_reading_scan t = some (((c : ℤ) - (p : ℤ) : ℤ) : ℚ) := by
  unfold first_meter_pair at h
  unfold meter_reading_scan
  cases e1 : meterPairSearch mPrevReading1 mCurrReading1 t with
  | some pc =>
      rw [e1] at h
      simp only [Option.some_orElse] at h
      obtain rfl : pc = (p, c) := Option.some.inj h
      rw [meterTry_some e1 h5 h6]
      simp only [Option.some_orElse]
  | none =>
      rw [e1] at h
      simp only [Option.none_orElse] at h
      rw [meterTry_none e1]
      simp only [Option.none_orElse]
      cases e2 : meterPairSearch mPrevRead2 mCurrRead2 t with
      | some pc =>
          rw [e2] at h
          simp only [Option.some_orElse] at h
          obtain rfl : pc = (p, c) := Option.some.inj h
          rw [meterTry_some e2 h5 h6]
          simp only [Option.some_orElse]
      | none =>
          rw [e2] at h
          simp only [Option.none_orElse] at h
          rw [meterTry_none e2]
          simp only [Option.none_orElse]
          exact meterTry_some h h5 h6

/-- C1 as amended: on any text where no table-usage or billed-usage pattern
matches and a previous/current meter-reading pair `(p, c)` is found with
`c > p` and `c - p` strictly between `50` and `10000`, the usage extractor
returns exactly `c - p`. -/
theorem C1_meter_difference (s : String) (p c : ℕ)
    (h1 : table_usage_scan (lower s) = none)
    (h2 : billed_table_scan (lower s) = none)
    (h3 : first_meter_pair (lower s) = some (p, c))
    (_h4 : (p : ℤ) < (c : ℤ))
    (h5 : 50 < (c : ℤ) - (p : ℤ)) (h6 : (c : ℤ) - (p : ℤ) < 10000) :
    extract_usage_value s = some (((c : ℤ) - (p : ℤ) : ℤ) : ℚ) := by
  have hm := meter_scan_of_first_pair (lower s) p c h3 h5 h6
  simp only [extract_usage_value, h1, h2, hm, Option.none_orElse, Option.some_orElse]

/-- Witness for C1 as amended: previous `12258`, current `12512` yields
exactly `254`. -/
theorem C1_meter_difference_witness :
    extract_usage_value "Previous Reading: 12258\nCurrent Reading: 12512" =
      some 254 := by
  have h := C1_meter_difference "Previous Reading: 12258\nCurrent Reading: 12512"
    12258 12512 (by decide) (by decide) (by decide) (by decide) (by decide) (by decide)
  norm_num at h
  exact h

/-- Counterexample to C1 as stated: at `previous = 100`, `current = 150` the
difference `50` lies in the closed interval `[50, 10000]` of the claim and
every other hypothesis of the claim holds, yet the extractor returns nothing
(the plausibility filter is strict: `50 < usage < 10000`). -/
theorem C1_counterexample :
    table_usage_scan (lower "Previous Reading: 100\nCurrent Reading: 150") = none ∧
    billed_table_scan (lower "Previous Reading: 100\nCurrent Reading: 150") = none ∧
    first_meter_pair (lower "Previous Reading: 100\nCurrent Reading: 150") =
      some (100, 150) ∧
    ((150 : ℤ) - (100 : ℤ) = 50 ∧ (50 : ℤ) ≤ 50 ∧ (50 : ℤ) ≤ 10000) ∧
    extract_usage_value "Previous Reading: 100\nCurrent Reading: 150" = none := by
  refine ⟨by decide, by decide, by decide, by decide, by decide⟩

/-- C9 as amended: on any text where no table-usage, billed-usage or
meter-reading pattern matches and the first `Current ... usage: N kWh` match
captures `850`, the extractor returns `850` (in particular the `Average
usage: 1100 kWh` decoy line is never the result). -/
theorem C9_current_usage_priority (s : String)
    (h1 : table_usage_scan (lower s) = none)
    (h2 : billed_table_scan (lower s) = none)
    (h3 : meter_reading_scan (lower s) = none)
    (h4 : searchCap mCurrentUsage (lower s) = some 850) :
    extract_usage_value s = some 850 := by
  have hp : priority_label_scan (lower s) = some 850 := by
    unfold priority_label_scan tryFirstMatch
    rw [h4]
    have hr : inRange 850 = true := by decide
    simp [hr]
  simp only [extract_usage_value, h1, h2, h3, hp, Option.none_orElse,
    Option.some_orElse]

/-- Witness for C9 as amended: the two-line decoy text of the claim yields
`850`, never `1100`. -/
theorem C9_current_usage_priority_witness :
    extract_usage_value "Average usage: 1100 kWh\nCurrent usage: 850 kWh" =
      some 850 ∧
    (splitLines ("Average usage: 1100 kWh\nCurrent usage: 850 kWh".toList)).contains
      ("Average usage: 1100 kWh".toList) = true ∧
    (splitLines ("Average usage: 1100 kWh\nCurrent usage: 850 kWh".toList)).contains
      ("Current usage: 850 kWh".toList) = true :=
  ⟨C9_current_usage_priority "Average usage: 1100 kWh\nCurrent usage: 850 kWh"
      (by decide) (by decide) (by decide) (by decide),
    by decide, by decide⟩

/-- Counterexample to C9 as stated: a text containing both the `Average
usage: 1100 kWh` line and the `Current usage: 850 kWh` line, plus a table row
`| 1100`, makes the higher-priority table scan win: the extractor returns
`1100`, not `850`. -/
theorem C9_counterexample :
    (splitLines ("| 1100\nAverage usage: 1100 kWh\nCurrent usage: 850 kWh".toList)).contains
      ("Average usage: 1100 kWh".toList) = true ∧
    (splitLines ("| 1100\nAverage usage: 1100 kWh\nCurrent usage: 850 kWh".toList)).contains
      ("Current usage: 850 kWh".toList) = true ∧
    extract_usage_value "| 1100\nAverage usage: 1100 kWh\nCurrent usage: 850 kWh" =
      some 1100 := by
  refine ⟨by decide, by decide, by decide⟩

/-- Warnings that all fail the hallucination-word test contribute nothing to
the filtered warning list. -/
theorem filter_false_nil (A : List RWarning)
    (hA : ∀ w ∈ A, w.mentions_hallucination = false) :
    A.filter RWarning.mentions_hallucination = [] := by
  induction A with
  | nil => rfl
  | cons a as ih =>
      simp [List.filter_cons, hA a (List.mem_cons_self a as),
        ih fun w hw => hA w (List.mem_cons_of_mem a hw)]

/-- Appending hallucination-free warning lists leaves the filtered list
unchanged. -/
theorem filter_mentions_append (w1 A B : List RWarning)
    (hA : ∀ w ∈ A, w.mentions_hallucination = false)
    (hB : ∀ w ∈ B, w.mentions_hallucination = false) :
    (w1 ++ A ++ B).filter RWarning.mentions_hallucination =
      w1.filter RWarning.mentions_hallucination := by
  rw [List.filter_append, List.filter_append, filter_false_nil A hA,
    filter_false_nil B hB, List.append_nil, List.append_nil]

/-- C7 as amended: for a generated report, `validation_passed` is false
exactly when the accuracy verifier emitted its `HALLUCINATION DETECTED`
warning (a found numeric value materially wrong); missing-section,
too-short, unit-mismatch and value-absent warnings never flip the flag. -/
theorem C7_hallucination_flag (d : EmissionsData) (pm : Option String)
    (resp : String) (cost : ℚ) :
    ((generate_gri_report_section d (true, pm) (.ok resp cost)).validation_passed
        = false ↔
      ∃ w : RWarning, (verify_report_accuracy resp d (1/10)).2 = some w ∧
        w.mentions_hallucination = true) := by
  rcases hv : verify_report_accuracy resp d (1/10) with ⟨b, ow⟩
  have hA : ∀ w ∈ (if (validate_report_completeness resp).1 then ([] : List RWarning)
      else [RWarning.missingSections (validate_report_completeness resp).2]),
      w.mentions_hallucination = false := by
    intro w hw
    split_ifs at hw
    · cases hw
    · rw [List.mem_singleton] at hw
      subst hw
      rfl
  have hB : ∀ w ∈ (if resp.length < 200 then [RWarning.tooShort]
      else ([] : List RWarning)), w.mentions_hallucination = false := by
    intro w hw
    split_ifs at hw
    · rw [List.mem_singleton] at hw
      subst hw
      rfl
    · cases hw
  simp only [generate_gri_report_section, hv]
  rw [filter_mentions_append _ _ _ hA hB]
  cases ow with
  | none => cases b <;> simp
  | some w =>
      cases hm : w.mentions_hallucination with
      | true => cases b <;> simp [hm]
      | false => cases b <;> simp [hm]

/-- Counterexample to C7 as stated: a generated report with no numbers at all
is flagged inaccurate by the verifier (the expected value is absent, a
hallucination-class error in the claim's sense), yet `validation_passed`
remains true because only the `HALLUCINATION DETECTED` message flips it. -/
theorem C7_counterexample :
    (generate_gri_report_section ⟨622/1000⟩ (true, none)
        (.ok "No data available." 0)).validation_passed = true ∧
    (verify_report_accuracy "No data available." ⟨622/1000⟩ (1/10)).1 = false ∧
    (verify_report_accuracy "No data available." ⟨622/1000⟩ (1/10)).2 =
      some .noNumbers := by
  refine ⟨by decide, by decide, by decide⟩

/-- Witness for C7 as amended: a report stating `0.850` against expected
`0.622` trips the hallucination detector and `validation_passed` is false. -/
theorem C7_hallucination_flag_witness :
    (generate_gri_report_section ⟨622/1000⟩ (true, none)
        (.ok "Total Scope 2 emissions: 0.850 metric tons CO2e" 0)).validation_passed
      = false := by
  rw [C7_hallucination_flag]
  exact ⟨.hallucinationDetected (17/20) (622/1000) (11400/311), by decide, rfl⟩

/-- The in-band branch of the verifier always reports accuracy. -/
theorem verify_match_branch_fst (e m : ℚ) (ms : List ℚ) :
    (verify_match_branch e m ms).1 = true := by
  unfold verify_match_branch
  split_ifs <;> rfl

/-- The no-band branch of the verifier always reports inaccuracy. -/
theorem verify_no_match_branch_fst (e tol : ℚ) (found : List ℚ) :
    (verify_no_match_branch e tol found).1 = false := by
  unfold verify_no_match_branch
  cases unitCheck found tol e
      [(e * 1000, "kg"), (e * (220462/100), "lb"), (e * 1000000, "g")] with
  | some w => rfl
  | none =>
      cases found with
      | nil => rfl
      | cons f fs =>
          dsimp only
          split_ifs <;> rfl

/-- Membership in the acceptance-band filter. -/
theorem mem_band_filter (found : List ℚ) (e tol v : ℚ) :
    v ∈ band_filter found e tol ↔
      (v ∈ found ∧ (e - |e * tol / 100| ≤ v ∧ v ≤ e + |e * tol / 100|)) := by
  simp [band_filter, List.mem_filter]

/-- For a positive expectation and nonnegative tolerance, the band test is
the symmetric distance bound of the claim. -/
theorem band_iff (e tol v : ℚ) (he : 0 < e) (ht : 0 ≤ tol) :
    ((e - |e * tol / 100| ≤ v ∧ v ≤ e + |e * tol / 100|) ↔
      |v - e| ≤ e * tol / 100) := by
  have habs : |e * tol / 100| = e * tol / 100 := abs_of_nonneg (by positivity)
  rw [habs, abs_sub_le_iff]
  constructor <;> rintro ⟨u1, u2⟩ <;> constructor <;> linarith

/-- Expansion of the verifier on a nonempty value list with an in-band
match. -/
theorem verify_eq_match (resp : String) (d : EmissionsData) (tol : ℚ)
    (m : ℚ) (ms : List ℚ)
    (hne : (found_values (lower resp)).isEmpty = false)
    (hfil : band_filter (found_values (lower resp)) d.metric_tons_co2 tol = m :: ms) :
    verify_report_accuracy resp d tol = verify_match_branch d.metric_tons_co2 m ms := by
  simp only [verify_report_accuracy, hne, Bool.false_eq_true, if_false, hfil]

/-- Expansion of the verifier on a nonempty value list with no in-band
match. -/
theorem verify_eq_no_match (resp : String) (d : EmissionsData) (tol : ℚ)
    (hne : (found_values (lower resp)).isEmpty = false)
    (hfil : band_filter (found_values (lower resp)) d.metric_tons_co2 tol = []) :
    verify_report_accuracy resp d tol =
      verify_no_match_branch d.metric_tons_co2 tol (found_values (lower resp)) := by
  simp only [verify_report_accuracy, hne, Bool.false_eq_true, if_false, hfil]

/-- C8: with values found in the report, the verifier accepts exactly when
some found value lies within `expected ± expected * tolerance / 100`; an
exact match yields no warning, a merely-in-band match yields the
informational percentage-deviation note. -/
theorem C8_tolerance_band (resp : String) (d : EmissionsData) (tol : ℚ)
    (he : 0 < d.metric_tons_co2) (ht : 0 ≤ tol)
    (hf : found_values (lower resp) ≠ []) :
    ((verify_report_accuracy resp d tol).1 = true ↔
      ∃ v ∈ found_values (lower resp),
        |v - d.metric_tons_co2| ≤ d.metric_tons_co2 * tol / 100) ∧
    (d.metric_tons_co2 ∈ found_values (lower resp) →
      verify_report_accuracy resp d tol = (true, none)) ∧
    ((∃ v ∈ found_values (lower resp),
        |v - d.metric_tons_co2| ≤ d.metric_tons_co2 * tol / 100) →
      d.metric_tons_co2 ∉ found_values (lower resp) →
      ∃ cl : ℚ, cl ∈ found_values (lower resp) ∧ cl ≠ d.metric_tons_co2 ∧
        verify_report_accuracy resp d tol =
          (true, some (.accuracyNote cl d.metric_tons_co2
            (|(cl - d.metric_tons_co2) / d.metric_tons_co2 * 100|)))) := by
  have hne : (found_values (lower resp)).isEmpty = false := by
    cases hFF : found_values (lower resp) with
    | nil => exact absurd hFF hf
    | cons a b => rfl
  have hmem : ∀ v, v ∈ band_filter (found_values (lower resp)) d.metric_tons_co2 tol ↔
      (v ∈ found_values (lower resp) ∧
        |v - d.metric_tons_co2| ≤ d.metric_tons_co2 * tol / 100) := by
    intro v
    rw [mem_band_filter, band_iff _ _ _ he ht]
  cases hfil : band_filter (found_values (lower resp)) d.metric_tons_co2 tol with
  | nil =>
      have hnoband : ¬ ∃ v ∈ found_values (lower resp),
          |v - d.metric_tons_co2| ≤ d.metric_tons_co2 * tol / 100 := by
        rintro ⟨v, hv, hb⟩
        have hvf := (hmem v).mpr ⟨hv, hb⟩
        rw [hfil] at hvf
        exact absurd hvf (List.not_mem_nil v)
      rw [verify_eq_no_match resp d tol hne hfil]
      refine ⟨?_, ?_, ?_⟩
      · rw [verify_no_match_branch_fst]
        exact iff_of_false Bool.false_ne_true hnoband
      · intro hmem_e
        refine absurd ⟨d.metric_tons_co2, hmem_e, ?_⟩ hnoband
        simp only [sub_self, abs_zero]
        positivity
      · intro hex _
        exact absurd hex hnoband
  | cons m ms =>
      rw [verify_eq_match resp d tol m ms hne hfil]
      have hmmem : m ∈ band_filter (found_values (lower resp)) d.metric_tons_co2 tol := by
        rw [hfil]
        exact List.mem_cons_self m ms
      refine ⟨?_, ?_, ?_⟩
      · rw [verify_match_branch_fst]
        refine iff_of_true rfl ?_
        obtain ⟨hmF, hmband⟩ := (hmem m).mp hmmem
        exact ⟨m, hmF, hmband⟩
      · intro hmem_e
        have heband : d.metric_tons_co2 ∈ m :: ms := by
          rw [← hfil]
          refine (hmem _).mpr ⟨hmem_e, ?_⟩
          simp only [sub_self, abs_zero]
          positivity
        have hclose := closestTo_min d.metric_tons_co2 m ms _ heband
        have hc0 : |closestTo d.metric_tons_co2 m ms - d.metric_tons_co2| ≤ 0 := by
          simpa using hclose
        have hceq : closestTo d.metric_tons_co2 m ms = d.metric_tons_co2 := by
          have h00 := le_antisymm hc0
            (abs_nonneg (closestTo d.metric_tons_co2 m ms - d.metric_tons_co2))
          exact sub_eq_zero.mp (abs_eq_zero.mp h00)
        unfold verify_match_branch
        rw [hceq]
        simp
      · intro hex hnotmem
        have hmemc := closestTo_mem d.metric_tons_co2 m ms
        rw [← hfil] at hmemc
        have hclF := ((hmem _).mp hmemc).1
        have hcne : closestTo d.metric_tons_co2 m ms ≠ d.metric_tons_co2 := by
          intro heq
          exact hnotmem (heq ▸ hclF)
        have hdev : |(closestTo d.metric_tons_co2 m ms - d.metric_tons_co2) /
            d.metric_tons_co2 * 100| ≠ 0 := by
          rw [abs_ne_zero]
          exact mul_ne_zero
            (div_ne_zero (sub_ne_zero.mpr hcne) (ne_of_gt he)) (by norm_num)
        refine ⟨closestTo d.metric_tons_co2 m ms, hclF, hcne, ?_⟩
        unfold verify_match_branch
        rw [if_neg hdev]

/-- Witness for C8: the claim's concrete example, report text
`Total Scope 2 emissions: 0.622 metric tons CO2e` against expected `0.622`,
is accepted with no warning. -/
theorem C8_tolerance_band_witness :
    verify_report_accuracy "Total Scope 2 emissions: 0.622 metric tons CO2e"
      ⟨622/1000⟩ (1/10) = (true, none) :=
  (C8_tolerance_band "Total Scope 2 emissions: 0.622 metric tons CO2e"
      ⟨622/1000⟩ (1/10) (by norm_num) (by norm_num) (by decide)).2.1 (by decide)

end Esg
